import Mathlib

/-!
# Verification of the ollama RAG scripts

A shallow embedding of the two orchestration scripts `rag_ingestion.py` and
`query_rag.py`.  Pure glue logic (ordering of steps, directory checks, the
wipe of the persistence directory, the chat-loop control flow, the exit-word
comparison) is translated directly from the Python source.  External
collaborators (the document reader, the embedding provider, the index's
add-documents and top-k retrieval) are modelled from the contracts the design
document states for them, and are marked as such in their doc comments.
-/

namespace RagBlog

/-- Configuration constant `COLLECTION_NAME = "survival_docs"` shared by both
scripts. -/
def COLLECTION_NAME : String := "survival_docs"

/-- A file of the source directory: its name and its text contents. -/
structure SrcFile where
  name : String
  text : String
deriving Repr, DecidableEq

/-- A loaded document (`llama_index` `Document`): the text body and the
`file_name` metadata attribute. -/
structure Document where
  fileName : String
  text : String
deriving Repr, DecidableEq

/-- A persisted vector-store entry: identifier, embedding vector, original
text, and the source file name kept as metadata. -/
structure Entry where
  id : Nat
  vector : List Int
  text : String
  fileName : String
deriving Repr, DecidableEq

/-- The on-disk state the two scripts touch: the source directory (`none`
means the directory does not exist; `some files` lists its files) and the
persistence directory (`none` means it does not exist; `some cols` is the
set of named Chroma collections it holds, each with its entries). -/
structure FS where
  sourceDir : Option (List SrcFile)
  persistDir : Option (List (String × List Entry))
deriving Repr, DecidableEq

/-- Entries of the collection named `COLLECTION_NAME` in the persistence
directory, when both exist. -/
def collectionOf (fs : FS) : Option (List Entry) :=
  fs.persistDir.bind fun cols =>
    (cols.find? (fun c => c.1 == COLLECTION_NAME)).map (·.2)

/-! ## Ingestion pipeline (`rag_ingestion.py`) -/

/-- `initialize_vector_store` of `rag_ingestion.py`: if the persistence
directory exists it is removed whole (`shutil.rmtree(PERSIST_DIR)`), then it
is recreated (`os.makedirs`) and `get_or_create_collection(COLLECTION_NAME)`
leaves it holding exactly one empty collection of that name.  Returns the new
filesystem state together with the messages printed. -/
def init_vector_store (fs : FS) : FS × List String :=
  let wipeLog : List String :=
    match fs.persistDir with
    | some _ => ["Wiping previous database"]
    | none => []
  (⟨fs.sourceDir, some [(COLLECTION_NAME, [])]⟩,
    wipeLog ++ ["ChromaDB vector store initialized."])

/-- `load_documents` of `rag_ingestion.py`: exits with code 1 and a
diagnostic when the source directory is missing or empty
(`not os.path.exists(DATA_DIR) or not os.listdir(DATA_DIR)`); otherwise the
reader loads the files into documents (Modelled from the spec: the external
`SimpleDirectoryReader` reads every file of the directory into one text
document carrying its file name), and exits with code 1 if no documents were
loaded. -/
def load_documents (fs : FS) : Except (Nat × List String) (List Document) :=
  match fs.sourceDir with
  | none =>
      .error (1, ["ERROR: Data directory is missing or empty.",
                  "Please create it and add your documents."])
  | some files =>
      if files.isEmpty then
        .error (1, ["ERROR: Data directory is missing or empty.",
                    "Please create it and add your documents."])
      else
        let documents := files.map fun f => Document.mk f.name f.text
        if documents.isEmpty then
          .error (1, ["No documents found. Please add some text files."])
        else
          .ok documents

/-- Modelled from the spec: the external Index operation
`VectorStoreIndex.from_documents` called by `ingest_documents` embeds each
document and persists it — one `Document` yields exactly one
`Vector Store Entry` (whole-document embedding), with entry identifiers
unique within the collection. -/
def entriesOfDocuments (embed : String → List Int) (docs : List Document) :
    List Entry :=
  docs.enum.map fun p => Entry.mk p.1 (embed p.2.text) p.2.text p.2.fileName

/-- `ingest_documents` of `rag_ingestion.py`: writes the embedded documents
into the named collection of the persistence directory through the vector
store handle created by `init_vector_store`. -/
def ingest_documents (embed : String → List Int) (docs : List Document)
    (fs : FS) : FS :=
  match fs.persistDir with
  | none => fs
  | some cols =>
      ⟨fs.sourceDir,
       some (cols.map fun c =>
         if c.1 == COLLECTION_NAME then (c.1, entriesOfDocuments embed docs)
         else c)⟩

/-- Outcome of a run of the ingestion script: the process exit code, the
messages printed, and the filesystem state at exit. -/
structure IngestResult where
  exitCode : Nat
  log : List String
  fs : FS
deriving Repr, DecidableEq

/-- `main` of `rag_ingestion.py`, in the source's order:
`setup_llm_and_embed_models()` (no filesystem effect), then
`initialize_vector_store()`, then `load_documents()` (which may
`sys.exit(1)`), then `ingest_documents(...)`. -/
def ingestion_main (embed : String → List Int) (fs : FS) : IngestResult :=
  let (fs1, log1) := init_vector_store fs
  match load_documents fs1 with
  | .error (code, msgs) => ⟨code, log1 ++ msgs, fs1⟩
  | .ok docs =>
      ⟨0, log1 ++ ["Index created and documents ingested successfully."],
        ingest_documents embed docs fs1⟩

/-! ## Query pipeline (`query_rag.py`) -/

/-- `load_vector_store_and_index` of `query_rag.py`: exits with code 1 and a
diagnostic if the persistence directory does not exist
(`not os.path.exists(PERSIST_DIR)`), exits with code 1 and a diagnostic if
`db.get_collection(COLLECTION_NAME)` raises (the collection is absent);
otherwise yields the index over the collection's entries. -/
def load_vector_store_and_index (fs : FS) :
    Except (Nat × List String) (List Entry) :=
  match fs.persistDir with
  | none =>
      .error (1, ["ERROR: ChromaDB persistence directory not found.",
                  "Please run the rag_ingestion.py script first."])
  | some cols =>
      match cols.find? (fun c => c.1 == COLLECTION_NAME) with
      | none =>
          .error (1, ["Error getting collection.",
                      "Ensure the collection was created by rag_ingestion.py."])
      | some c => .ok c.2

/-- The query engine of `create_query_engine`: the loaded index together with
the retrieval fan-out, fixed by the source at `similarity_top_k=3`, and
streaming enabled. -/
structure QueryEngine where
  entries : List Entry
  similarity_top_k : Nat
  streaming : Bool
deriving Repr, DecidableEq

/-- `create_query_engine` of `query_rag.py`:
`index.as_query_engine(similarity_top_k=3, ..., streaming=True)`. -/
def create_query_engine (entries : List Entry) : QueryEngine :=
  ⟨entries, 3, true⟩

/-- A retrieved source node as printed by the chat loop: entry identifier,
similarity score, and the `file_name` metadata. -/
structure RetrievedNode where
  nodeId : Nat
  score : Int
  fileName : String
  text : String
deriving Repr, DecidableEq

/-- Insertion into a list kept in non-increasing score order. -/
def insertByScoreDesc (n : RetrievedNode) :
    List RetrievedNode → List RetrievedNode
  | [] => [n]
  | m :: ms =>
      if m.score < n.score then n :: m :: ms
      else m :: insertByScoreDesc n ms

/-- Sorting by non-increasing similarity score. -/
def sortByScoreDesc : List RetrievedNode → List RetrievedNode
  | [] => []
  | n :: ns => insertByScoreDesc n (sortByScoreDesc ns)

/-- Modelled from the spec: the external Index's top-k similarity retrieval
used by `query_engine.query` — embed the query, score every entry of the
collection, rank descending by score, return the first
`similarity_top_k`. -/
def retrieve (sim : List Int → List Int → Int) (embed : String → List Int)
    (qe : QueryEngine) (q : String) : List RetrievedNode :=
  (sortByScoreDesc (qe.entries.map fun e =>
    RetrievedNode.mk e.id (sim (embed q) e.vector) e.fileName e.text)).take
    qe.similarity_top_k

/-! ## Chat loop (`run_chat_loop` of `query_rag.py`)

The loop body is one `try` block: `input("You: ")`, the exit-word test, the
blank test, and — for a non-blank non-exit line — the query and the token
stream.  Its handlers are `except EOFError: break`,
`except KeyboardInterrupt: break`, and `except Exception: print diagnostic,
print traceback` (and fall through to the next iteration).  One iteration is
modelled as a function of the event the iteration encounters. -/

/-- What a query issued inside the `try` block does: returns normally,
raises an `Exception` (caught by the `except Exception` handler), or is cut
short by a `KeyboardInterrupt` (caught by the `except KeyboardInterrupt`
handler). -/
inductive QueryEvent where
  | success
  | exception
  | interrupt
deriving Repr, DecidableEq

/-- The event one iteration of the loop encounters: `input()` returns the
line `s` (with `q` describing the query's outcome, relevant only when a
query is actually issued), `input()` raises `EOFError`, or a
`KeyboardInterrupt` arrives while waiting for input. -/
inductive ChatEvent where
  | line (s : String) (q : QueryEvent)
  | eofAtInput
  | interruptAtInput
deriving Repr, DecidableEq

/-- The state the loop is in after an iteration: back at the prompt, or out
of the `while` loop. -/
inductive LoopState where
  | waiting
  | terminated
deriving Repr, DecidableEq

/-- What one iteration did: the resulting loop state, whether a query was
issued (`query_engine.query` called, hence a model call), and whether the
`except Exception` handler printed a diagnostic and a stack trace. -/
structure StepResult where
  next : LoopState
  queryIssued : Bool
  errorLogged : Bool
deriving Repr, DecidableEq

/-- Python's `str.lower`, on the character list of the line (for the ASCII
inputs in play, lowercasing is character-wise). -/
def pyLower (s : String) : List Char := s.toList.map Char.toLower

/-- Python's `str.strip`: remove leading and trailing whitespace. -/
def pyStrip (s : String) : List Char :=
  ((s.toList.dropWhile Char.isWhitespace).reverse.dropWhile
    Char.isWhitespace).reverse

/-- The exit-word test of the source: `user_input.lower() in ['quit',
'exit']` — the raw line is lowercased, not stripped. -/
def isExitCommand (s : String) : Bool :=
  pyLower s == "quit".toList || pyLower s == "exit".toList

/-- The blank test of the source: `if user_input.strip():` — the line is
non-blank after stripping surrounding whitespace. -/
def isNonBlank (s : String) : Bool := !(pyStrip s).isEmpty

/-- One iteration of `run_chat_loop`, translated from the source:
`EOFError` and `KeyboardInterrupt` at the prompt `break`; an exit word
`break`s before any query; a blank line re-prompts; a non-blank non-exit
line issues the query, whose `Exception` is caught and logged (loop
continues) while a `KeyboardInterrupt` during it `break`s. -/
def chatStep (ev : ChatEvent) : StepResult :=
  match ev with
  | .eofAtInput => ⟨.terminated, false, false⟩
  | .interruptAtInput => ⟨.terminated, false, false⟩
  | .line s q =>
      if isExitCommand s then ⟨.terminated, false, false⟩
      else if isNonBlank s then
        match q with
        | .success => ⟨.waiting, true, false⟩
        | .exception => ⟨.waiting, true, true⟩
        | .interrupt => ⟨.terminated, true, false⟩
      else ⟨.waiting, false, false⟩

/-- `run_chat_loop` over a whole session: iterate `chatStep` over the events
until an iteration leaves the loop. -/
def runLoop : List ChatEvent → List StepResult
  | [] => []
  | ev :: evs =>
      let r := chatStep ev
      r :: (if r.next == LoopState.terminated then [] else runLoop evs)

/-- Outcome of a run of the query script: exit code, number of model
(generation) calls made, and the diagnostics printed at startup. -/
structure QueryRunResult where
  exitCode : Nat
  modelCalls : Nat
  startupLog : List String
deriving Repr, DecidableEq

/-- `main` of `query_rag.py`: `setup_llm_and_embed_models()` (constructs
clients, no model call), `load_vector_store_and_index()` (may `sys.exit(1)`),
`create_query_engine(...)`, then `run_chat_loop(...)`; when the loop returns,
`main` returns and the process exits with code 0.  Each issued query makes
one model (generation) call. -/
def query_main (fs : FS) (evs : List ChatEvent) : QueryRunResult :=
  match load_vector_store_and_index fs with
  | .error (code, msgs) => ⟨code, 0, msgs⟩
  | .ok entries =>
      let _engine := create_query_engine entries
      let steps := runLoop evs
      ⟨0, (steps.filter (·.queryIssued)).length, []⟩

/-! ## Shared concrete values and helper lemmas -/

/-- A concrete embedding used to evaluate the model on concrete inputs: the
text's length as a one-component vector (any fixed deterministic function
would do). -/
def embedLen (s : String) : List Int := [(s.length : Int)]

/-- The one-file source directory of the design document's ingestion
scenario. -/
def fireFile : SrcFile :=
  ⟨"fire.txt", "Rubbing sticks together generates heat via friction."⟩

theorem length_insertByScoreDesc (n : RetrievedNode)
    (ns : List RetrievedNode) :
    (insertByScoreDesc n ns).length = ns.length + 1 := by
  induction ns with
  | nil => rfl
  | cons m ms ih =>
      by_cases h : m.score < n.score
      · simp [insertByScoreDesc, h]
      · simp [insertByScoreDesc, h, ih]

theorem length_sortByScoreDesc (ns : List RetrievedNode) :
    (sortByScoreDesc ns).length = ns.length := by
  induction ns with
  | nil => rfl
  | cons n ms ih => simp [sortByScoreDesc, length_insertByScoreDesc, ih]

/-! ## Claim theorems -/

/-- C8: for every query executed against the collection, the number of
Retrieved Source Nodes returned equals `min(k, total entries in the
collection)`, with the fan-out `k` fixed at 3 by `create_query_engine`. -/
theorem retrieved_node_count (sim : List Int → List Int → Int)
    (embed : String → List Int) (entries : List Entry) (q : String) :
    (retrieve sim embed (create_query_engine entries) q).length =
      min 3 entries.length := by
  simp [retrieve, create_query_engine, length_sortByScoreDesc]

/-- C10: the input line `" exit "` (an exit keyword surrounded by
whitespace) is not treated as an exit command, because the comparison
lowercases the raw line without stripping it; the line is non-blank after
stripping, so it is submitted as a query and the loop then returns to the
prompt. -/
theorem padded_exit_is_queried :
    isExitCommand " exit " = false ∧ isNonBlank " exit " = true ∧
    chatStep (ChatEvent.line " exit " QueryEvent.success) =
      ⟨LoopState.waiting, true, false⟩ := by
  refine ⟨by decide, by decide, ?_⟩
  simp [chatStep, isExitCommand, isNonBlank]
  decide

/-- C6: every `Exception` raised while querying or streaming inside the
chat loop is caught by the `except Exception` handler, a diagnostic and a
stack trace are printed, and the loop returns to waiting for input. -/
theorem query_error_nonfatal (s : String) (h1 : isExitCommand s = false)
    (h2 : isNonBlank s = true) :
    chatStep (ChatEvent.line s QueryEvent.exception) =
      ⟨LoopState.waiting, true, true⟩ := by
  simp [chatStep, h1, h2]

/-- C6 witness: a concrete non-exit, non-blank line whose query raises. -/
theorem query_error_nonfatal_witness :
    chatStep (ChatEvent.line "What is fire?" QueryEvent.exception) =
      ⟨LoopState.waiting, true, true⟩ :=
  query_error_nonfatal "What is fire?" (by decide) (by decide)

/-- C3 counterexample: a `KeyboardInterrupt` during the query for the
concrete line `"How do I start a fire?"` does NOT return the loop to its
waiting-for-input state — the `except KeyboardInterrupt` handler `break`s
out of the loop. -/
theorem interrupt_ends_session_cex :
    (chatStep (ChatEvent.line "How do I start a fire?"
        QueryEvent.interrupt)).next ≠ LoopState.waiting := by
  decide

/-- C3 (amended): a process-level interrupt arriving during a query aborts
the current query and terminates the chat loop — a single interrupt ends
the session rather than returning control to the input loop. -/
theorem interrupt_terminates_loop (s : String)
    (h1 : isExitCommand s = false) (h2 : isNonBlank s = true) :
    chatStep (ChatEvent.line s QueryEvent.interrupt) =
      ⟨LoopState.terminated, true, false⟩ := by
  simp [chatStep, h1, h2]

/-- C3 witness: the amended behavior at a concrete in-flight query. -/
theorem interrupt_terminates_loop_witness :
    chatStep (ChatEvent.line "How to find water?" QueryEvent.interrupt) =
      ⟨LoopState.terminated, true, false⟩ :=
  interrupt_terminates_loop "How to find water?" (by decide) (by decide)

/-- The two fatal startup conditions of the query script: the persistence
directory does not exist, or it holds no collection of the configured
name. -/
def storeMissing (fs : FS) : Bool :=
  match fs.persistDir with
  | none => true
  | some cols => (cols.find? (fun c => c.1 == COLLECTION_NAME)).isNone

/-- C7: if the persisted vector store (its persistence directory or the
named collection within it) does not exist, the query program exits with
code 1, emits a diagnostic, and makes no language-model call before that
exit. -/
theorem missing_store_failfast (fs : FS) (evs : List ChatEvent)
    (h : storeMissing fs = true) :
    (query_main fs evs).exitCode = 1 ∧ (query_main fs evs).modelCalls = 0 ∧
    (query_main fs evs).startupLog ≠ [] := by
  rcases fs with ⟨src, pd⟩
  cases pd with
  | none => simp [query_main, load_vector_store_and_index]
  | some cols =>
      cases hf : cols.find? (fun c => c.1 == COLLECTION_NAME) with
      | none => simp [query_main, load_vector_store_and_index, hf]
      | some c => simp [storeMissing, hf] at h

/-- C7 witness: a wholly missing persistence directory. -/
theorem missing_store_failfast_witness :
    (query_main ⟨none, none⟩ []).exitCode = 1 ∧
    (query_main ⟨none, none⟩ []).modelCalls = 0 ∧
    (query_main ⟨none, none⟩ []).startupLog ≠ [] :=
  missing_store_failfast ⟨none, none⟩ [] (by decide)

/-- C9: an exit keyword ("quit"/"exit", case-insensitively) terminates the
chat loop cleanly with no query issued for that input, and the process then
exits with code 0: a session consisting of that line makes no model call
and `query_main` returns exit code 0. -/
theorem exit_keyword_clean_exit (fs : FS) (entries : List Entry)
    (s : String) (q : QueryEvent) (evs : List ChatEvent)
    (hload : load_vector_store_and_index fs = .ok entries)
    (hexit : isExitCommand s = true) :
    chatStep (ChatEvent.line s q) = ⟨LoopState.terminated, false, false⟩ ∧
    (query_main fs (ChatEvent.line s q :: evs)).exitCode = 0 ∧
    (query_main fs [ChatEvent.line s q]).modelCalls = 0 := by
  refine ⟨by simp [chatStep, hexit], ?_, ?_⟩
  · simp [query_main, hload]
  · simp [query_main, hload, runLoop, chatStep, hexit]

/-- C9 witness: the user types `"Exit"` against a store holding the (empty)
named collection. -/
theorem exit_keyword_clean_exit_witness :
    chatStep (ChatEvent.line "Exit" QueryEvent.success) =
      ⟨LoopState.terminated, false, false⟩ ∧
    (query_main ⟨none, some [(COLLECTION_NAME, [])]⟩
      [ChatEvent.line "Exit" QueryEvent.success]).exitCode = 0 ∧
    (query_main ⟨none, some [(COLLECTION_NAME, [])]⟩
      [ChatEvent.line "Exit" QueryEvent.success]).modelCalls = 0 := by
  have h := exit_keyword_clean_exit ⟨none, some [(COLLECTION_NAME, [])]⟩ []
    "Exit" QueryEvent.success [] rfl (by decide)
  exact ⟨h.1, h.2.1, h.2.2⟩

/-- An entry standing for data already persisted before an ingestion run. -/
def oldEntry : Entry := ⟨0, [7], "old text", "old.txt"⟩

/-- C1 counterexample: with the source directory missing and an existing
non-empty named collection on disk, the run exits with code 1 — but the
persisted store is NOT left unchanged: `main` calls
`initialize_vector_store` (which removes the whole persistence directory)
before `load_documents` performs the missing/empty check. -/
theorem wipe_precedes_check_cex :
    (ingestion_main embedLen
        ⟨none, some [(COLLECTION_NAME, [oldEntry])]⟩).exitCode = 1 ∧
    (ingestion_main embedLen
        ⟨none, some [(COLLECTION_NAME, [oldEntry])]⟩).fs.persistDir ≠
      some [(COLLECTION_NAME, [oldEntry])] := by
  decide

/-- C1 (amended): a run whose source directory is missing or empty exits
with code 1 and a diagnostic, but the destruction of step (b) precedes the
fail-fast check of step (a): at exit the persistence directory has already
been wiped and recreated, holding only the empty named collection, so an
existing persisted collection is destroyed rather than left unchanged. -/
theorem failed_run_wipes_store (embed : String → List Int) (fs : FS)
    (h : fs.sourceDir = none ∨ fs.sourceDir = some []) :
    (ingestion_main embed fs).exitCode = 1 ∧
    "ERROR: Data directory is missing or empty." ∈
      (ingestion_main embed fs).log ∧
    (ingestion_main embed fs).fs.persistDir =
      some [(COLLECTION_NAME, [])] := by
  rcases h with h | h <;>
    simp [ingestion_main, init_vector_store, load_documents, h]

/-- C1 witness: the amended behavior at the counterexample's input. -/
theorem failed_run_wipes_store_witness :
    (ingestion_main embedLen
        ⟨none, some [(COLLECTION_NAME, [oldEntry])]⟩).exitCode = 1 ∧
    "ERROR: Data directory is missing or empty." ∈
      (ingestion_main embedLen
        ⟨none, some [(COLLECTION_NAME, [oldEntry])]⟩).log ∧
    (ingestion_main embedLen
        ⟨none, some [(COLLECTION_NAME, [oldEntry])]⟩).fs.persistDir =
      some [(COLLECTION_NAME, [])] :=
  failed_run_wipes_store embedLen ⟨none, some [(COLLECTION_NAME, [oldEntry])]⟩
    (Or.inl rfl)

/-- C2: for every non-empty source directory of N files, the completed run
exits with code 0 and the named collection holds exactly N entries — one
per loaded document. -/
theorem ingestion_entry_count (embed : String → List Int)
    (files : List SrcFile) (pd : Option (List (String × List Entry)))
    (h : files ≠ []) :
    (ingestion_main embed ⟨some files, pd⟩).exitCode = 0 ∧
    collectionOf (ingestion_main embed ⟨some files, pd⟩).fs =
      some (entriesOfDocuments embed
        (files.map fun f => Document.mk f.name f.text)) ∧
    (entriesOfDocuments embed
        (files.map fun f => Document.mk f.name f.text)).length =
      files.length := by
  cases files with
  | nil => exact absurd rfl h
  | cons f rest =>
      refine ⟨?_, ?_, ?_⟩
      · simp [ingestion_main, init_vector_store, load_documents]
      · simp [ingestion_main, init_vector_store, load_documents,
          ingest_documents, collectionOf]
      · simp [entriesOfDocuments]

/-- C2 witness: the design document's one-file scenario yields one entry in
the collection. -/
theorem ingestion_entry_count_witness :
    (ingestion_main embedLen ⟨some [fireFile], none⟩).exitCode = 0 ∧
    collectionOf (ingestion_main embedLen ⟨some [fireFile], none⟩).fs =
      some (entriesOfDocuments embedLen
        ([fireFile].map fun f => Document.mk f.name f.text)) ∧
    (entriesOfDocuments embedLen
        ([fireFile].map fun f => Document.mk f.name f.text)).length =
      [fireFile].length :=
  ingestion_entry_count embedLen [fireFile] none (by simp)

/-- A persistence directory holding, besides the named collection, a second
collection `"other_collection"` with one entry. -/
def storeWithOther : List (String × List Entry) :=
  [(COLLECTION_NAME, [oldEntry]), ("other_collection", [⟨5, [1], "keep", "keep.txt"⟩])]

/-- C4 counterexample: before a (successful) ingestion run the persistence
directory holds a collection `"other_collection"` outside the configured
name; after the run that collection is gone — `initialize_vector_store`
removes the whole persistence directory, not just the named collection. -/
theorem other_data_destroyed_cex :
    (((⟨some [fireFile], some storeWithOther⟩ : FS).persistDir.getD []).find?
        (fun c => c.1 == "other_collection")).isSome = true ∧
    (ingestion_main embedLen
        ⟨some [fireFile], some storeWithOther⟩).exitCode = 0 ∧
    (((ingestion_main embedLen
        ⟨some [fireFile], some storeWithOther⟩).fs.persistDir.getD []).find?
        (fun c => c.1 == "other_collection")) = none := by
  decide

/-- C4 (amended): every ingestion run destroys the entire persistence
directory — the named collection and any other data residing there — and
recreates it holding only the named collection (rebuilt in full). -/
theorem ingestion_leaves_only_named_collection (embed : String → List Int)
    (fs : FS) :
    ∃ es, (ingestion_main embed fs).fs.persistDir =
      some [(COLLECTION_NAME, es)] := by
  rcases fs with ⟨src, pd⟩
  cases src with
  | none =>
      exact ⟨[], by simp [ingestion_main, init_vector_store, load_documents]⟩
  | some files =>
      cases files with
      | nil =>
          exact ⟨[], by
            simp [ingestion_main, init_vector_store, load_documents]⟩
      | cons f rest =>
          refine ⟨entriesOfDocuments embed
            ((f :: rest).map fun fl => Document.mk fl.name fl.text), ?_⟩
          simp [ingestion_main, init_vector_store, load_documents,
            ingest_documents]

/-- C5: running the ingestion pipeline twice in succession on the same
source directory leaves the named collection identical (hence with the same
entry count and content) to the collection left by a single run — full-wipe
idempotence. -/
theorem ingestion_idempotent (embed : String → List Int) (fs : FS) :
    collectionOf
      (ingestion_main embed (ingestion_main embed fs).fs).fs =
    collectionOf (ingestion_main embed fs).fs := by
  rcases fs with ⟨src, pd⟩
  cases src with
  | none =>
      simp [ingestion_main, init_vector_store, load_documents,
        ingest_documents, collectionOf]
  | some files =>
      cases files with
      | nil =>
          simp [ingestion_main, init_vector_store, load_documents,
            ingest_documents, collectionOf]
      | cons f rest =>
          simp [ingestion_main, init_vector_store, load_documents,
            ingest_documents, collectionOf]

end RagBlog
